import Mathlib

/-!
# Verification of the nearest-station resolution core of `th-airwidget`

Shallow embedding of `src/service/AirQualityService.ts` (the second, complete
variant of the service, lines 149-285): the haversine distance calculator
`calculateDistance`, the station resolver `getNearbyStations`
(map-distances / filter-by-radius / stable-sort pipeline with its two error
exits), and the fallback reading fetcher `getStationValue` /
`getStationValueWithFallback`.

Modelling choices:
* JavaScript numbers that may be `NaN` are modelled as `Option ℝ` with `none`
  playing the role of `NaN`: every arithmetic operation propagates `none`,
  `Math.sqrt` of a negative argument yields `none`, and the comparison
  `d <= max` used by the radius filter is `false` whenever `d` is `NaN`,
  exactly as in JavaScript.
* `parseFloat` is modelled for plain decimal literals (optional leading
  whitespace, optional sign, digits with an optional fractional part, trailing
  junk ignored); a string with no leading numeric prefix parses to `none`
  (JavaScript `NaN`).  Exponent and `Infinity` forms do not occur in the
  station data and are not modelled.
* `Array.prototype.sort` with the comparator `(a, b) => a.distance - b.distance`
  is a stable sort by ascending distance (stability is guaranteed by the
  ECMAScript specification); it is embedded as `List.insertionSort`, which is
  stable, over the relation `byDistance` comparing the `distance` components.
  The comparator never sees a `NaN` distance because the filter runs first.
* The resolver and the fallback fetcher are parameterised by the effectful
  ingredients (the distance assignment, the raw per-station HTTP fetch and the
  emptiness test on its payload), turning the `async` control flow into pure
  functions; the fallback fetcher additionally returns the trace of station
  ids it attempted, in call order, so that "attempts them in sequence, one
  each" is a provable statement.
* Errors raised with `throw new Error(message)` become constructors of
  explicit error types, one constructor per distinct message site; the
  constructor for the out-of-range message carries the threshold that the
  template string `No stations found within ${maxDistance} km` interpolates.
-/

namespace AirQuality

/-- The station record of the `DustboyStation` interface; only the fields the
resolver and fetcher touch are kept (id and the two coordinate strings), plus
the two name fields, all strings as in the source. -/
structure DustboyStation where
  dustboy_id : String
  dustboy_lat : String
  dustboy_lng : String
  dustboy_name : String
  dustboy_name_en : String
deriving DecidableEq

/-- The `LocationCoordinates` interface: the user position, in decimal
degrees. -/
structure LocationCoordinates where
  latitude : ℝ
  longitude : ℝ

/-- `EARTH_RADIUS_KM` of the source. -/
def EARTH_RADIUS_KM : ℝ := 6371

/-- `EXACT_MATCH_THRESHOLD` of the source.  Declared at line 151 of the
service; it is referenced nowhere else in the repository. -/
def EXACT_MATCH_THRESHOLD : ℚ := 0.1

/-! ## JavaScript `parseFloat` on decimal literals -/

/-- Numeric value of a digit list, most significant first (the usual
left fold `n * 10 + digit`). -/
def digitsVal (cs : List Char) : ℕ :=
  cs.foldl (fun n c => n * 10 + (c.toNat - 48)) 0

/-- JavaScript `parseFloat` restricted to plain decimal literals: skip leading
whitespace, read an optional sign, then the longest prefix
`digits [ '.' digits ]`; everything after that prefix is ignored.  If the
prefix contains no digit at all the JavaScript result is `NaN`, modelled as
`none`. -/
def parseFloat (s : String) : Option ℚ :=
  let cs := s.data.dropWhile (fun c => c.isWhitespace)
  let signAndRest : ℚ × List Char :=
    match cs with
    | '-' :: rest => (-1, rest)
    | '+' :: rest => (1, rest)
    | _ => (1, cs)
  let sign := signAndRest.1
  let body := signAndRest.2
  let intDigits := body.takeWhile (fun c => c.isDigit)
  let afterInt := body.dropWhile (fun c => c.isDigit)
  let fracDigits :=
    match afterInt with
    | '.' :: r => r.takeWhile (fun c => c.isDigit)
    | _ => []
  if intDigits.isEmpty && fracDigits.isEmpty then none
  else
    some (sign * ((digitsVal intDigits : ℚ) +
      (digitsVal fracDigits : ℚ) / 10 ^ fracDigits.length))

/-! ## The ranking order used by the sort comparator

The comparator `(a, b) => a.distance - b.distance` sorts by ascending
distance.  `optLe` is the corresponding "may come before" relation on possibly
`NaN` distances; the `none` cases are irrelevant to the pipeline because the
radius filter removes every `NaN` distance before the sort runs, but a total
transitive relation is needed to state sortedness. -/

/-- Ascending order on possibly-`NaN` distances (with `none` ordered first, a
choice the pipeline never exercises). -/
def optLe {α : Type} [LinearOrder α] : Option α → Option α → Prop
  | none, _ => True
  | some _, none => False
  | some x, some y => x ≤ y

instance optLe.instDecidable {α : Type} [LinearOrder α] :
    (a b : Option α) → Decidable (optLe a b)
  | none, _ => isTrue trivial
  | some _, none => isFalse fun h => h
  | some x, some y => inferInstanceAs (Decidable (x ≤ y))

theorem optLe_refl {α : Type} [LinearOrder α] (a : Option α) : optLe a a := by
  cases a with
  | none => trivial
  | some x => exact le_refl x

theorem optLe_total {α : Type} [LinearOrder α] (a b : Option α) :
    optLe a b ∨ optLe b a := by
  cases a with
  | none => exact Or.inl trivial
  | some x =>
    cases b with
    | none => exact Or.inr trivial
    | some y => exact le_total x y

theorem optLe_trans {α : Type} [LinearOrder α] {a b c : Option α}
    (h₁ : optLe a b) (h₂ : optLe b c) : optLe a c := by
  cases a with
  | none => trivial
  | some x =>
    cases b with
    | none => exact absurd h₁ (fun h => h)
    | some y =>
      cases c with
      | none => exact absurd h₂ (fun h => h)
      | some z => exact le_trans h₁ h₂

/-- The sort relation of the comparator `(a, b) => a.distance - b.distance`:
compare the `distance` component of the station-with-distance pairs. -/
def byDistance {α : Type} [LinearOrder α]
    (p q : DustboyStation × Option α) : Prop :=
  optLe p.2 q.2

instance byDistance.instDecidableRel {α : Type} [LinearOrder α] :
    DecidableRel (α := DustboyStation × Option α) byDistance :=
  fun p q => optLe.instDecidable p.2 q.2

instance byDistance.instIsTotal {α : Type} [LinearOrder α] :
    IsTotal (DustboyStation × Option α) byDistance :=
  ⟨fun p q => optLe_total p.2 q.2⟩

instance byDistance.instIsTrans {α : Type} [LinearOrder α] :
    IsTrans (DustboyStation × Option α) byDistance :=
  ⟨fun _ _ _ h₁ h₂ => optLe_trans h₁ h₂⟩

/-- The radius filter predicate `station.distance <= maxDistance`.  In
JavaScript any comparison with `NaN` is `false`, so a `none` distance never
passes the filter. -/
def distLe {α : Type} [LinearOrder α] (d : Option α) (m : α) : Bool :=
  match d with
  | some x => decide (x ≤ m)
  | none => false

/-! ## The station resolver `getNearbyStations` -/

/-- Errors thrown by `getNearbyStations`, one constructor per `throw` site:
`noStationsAvailable` is `'No stations data available'` (empty or missing
upstream station list) and `noStationsInRange` is the template
`` `No stations found within ${maxDistance} km` ``, whose interpolated
threshold the constructor carries. -/
inductive NearbyError (α : Type) where
  | noStationsAvailable : NearbyError α
  | noStationsInRange (maxDistance : α) : NearbyError α
deriving DecidableEq

/-- The resolution pipeline of `getNearbyStations`, parameterised by the
distance assignment `dist` (in the source, the haversine distance from the
user location to the station's parsed coordinates — see
`getNearbyStationsFromUser`):

1. `!stations?.length` guards the empty upstream list;
2. `stationsWithDistance` pairs every station with its distance (the source
   spreads the station record and adds a `distance` field);
3. the radius filter keeps `distance <= maxDistance`, then the stable sort
   orders by ascending distance;
4. an empty filtered list throws the in-range error carrying the threshold.
The generic `α` is the number type of the distances; the repository runs it at
`α = ℝ`. -/
def getNearbyStations {α : Type} [LinearOrder α]
    (dist : DustboyStation → Option α) (maxDistance : α)
    (stations : List DustboyStation) :
    Except (NearbyError α) (List (DustboyStation × Option α)) :=
  if stations.isEmpty then
    Except.error NearbyError.noStationsAvailable
  else
    let stationsWithDistance := stations.map fun s => (s, dist s)
    let nearbyStations :=
      List.insertionSort byDistance
        (stationsWithDistance.filter fun p => distLe p.2 maxDistance)
    if nearbyStations.isEmpty then
      Except.error (NearbyError.noStationsInRange maxDistance)
    else
      Except.ok nearbyStations

/-! ## The haversine calculator `calculateDistance`

Real-valued layer.  A JavaScript number is `Option ℝ`, with `none` for `NaN`;
`lift1`/`lift2` propagate `NaN` through the arithmetic exactly as IEEE
operations do, and `jsqrt` additionally models `Math.sqrt` of a negative
argument being `NaN`. -/

/-- Lift a unary real operation to possibly-`NaN` numbers. -/
def lift1 (f : ℝ → ℝ) : Option ℝ → Option ℝ := Option.map f

/-- Lift a binary real operation to possibly-`NaN` numbers: `NaN` in either
argument gives `NaN`. -/
def lift2 (f : ℝ → ℝ → ℝ) : Option ℝ → Option ℝ → Option ℝ
  | some x, some y => some (f x y)
  | _, _ => none

theorem lift1_none (f : ℝ → ℝ) : lift1 f none = none := rfl

theorem lift2_none_left (f : ℝ → ℝ → ℝ) (b : Option ℝ) :
    lift2 f none b = none := by cases b <;> rfl

theorem lift2_none_right (f : ℝ → ℝ → ℝ) (a : Option ℝ) :
    lift2 f a none = none := by cases a <;> rfl

/-- `Math.sqrt`: `NaN` on `NaN` and on negative arguments. -/
noncomputable def jsqrt : Option ℝ → Option ℝ
  | some x => if 0 ≤ x then some (Real.sqrt x) else none
  | none => none

/-- `Math.atan2(y, x)` on actual numbers (the signed-zero distinctions of
IEEE arithmetic are not representable in `ℝ` and collapse to the `x = 0`
row). -/
noncomputable def atan2 (y x : ℝ) : ℝ :=
  if 0 < x then Real.arctan (y / x)
  else if x < 0 then
    (if 0 ≤ y then Real.arctan (y / x) + Real.pi else Real.arctan (y / x) - Real.pi)
  else
    (if 0 < y then Real.pi / 2 else if y < 0 then -(Real.pi / 2) else 0)

/-- `Math.atan2` lifted to possibly-`NaN` numbers. -/
noncomputable def jatan2 : Option ℝ → Option ℝ → Option ℝ := lift2 atan2

/-- For a non-negative first argument, `atan2` lands in `[0, π]`; in
particular it is non-negative. -/
theorem atan2_nonneg (y x : ℝ) (hy : 0 ≤ y) : 0 ≤ atan2 y x := by
  unfold atan2
  by_cases hx : 0 < x
  · rw [if_pos hx]
    have h := Real.arctan_strictMono.monotone (div_nonneg hy hx.le)
    rwa [Real.arctan_zero] at h
  · rw [if_neg hx]
    by_cases hx' : x < 0
    · rw [if_pos hx', if_pos hy]
      have h := Real.neg_pi_div_two_lt_arctan (y / x)
      have hpi := Real.pi_pos
      linarith
    · rw [if_neg hx']
      by_cases hy' : 0 < y
      · rw [if_pos hy']
        have hpi := Real.pi_pos
        linarith
      · rw [if_neg hy', if_neg (by linarith : ¬y < 0)]

theorem atan2_zero_one : atan2 0 1 = 0 := by
  unfold atan2
  rw [if_pos one_pos]
  norm_num [Real.arctan_zero]

/-- `toRadians` of the source. -/
noncomputable def toRadians (degrees : ℝ) : ℝ := degrees * (Real.pi / 180)

/-- `calculateDistance` of the source, on possibly-`NaN` numbers, with the
exact let-structure and association of the TypeScript body:

```ts
const dLat = this.toRadians(lat2 - lat1);
const dLon = this.toRadians(lon2 - lon1);
const lat1Rad = this.toRadians(lat1);
const lat2Rad = this.toRadians(lat2);
const sinDLatHalf = Math.sin(dLat / 2);
const sinDLonHalf = Math.sin(dLon / 2);
const a = sinDLatHalf * sinDLatHalf +
    Math.cos(lat1Rad) * Math.cos(lat2Rad) *
    sinDLonHalf * sinDLonHalf;
const c = 2 * Math.atan2(Math.sqrt(a), Math.sqrt(1 - a));
return this.EARTH_RADIUS_KM * c;
```
-/
noncomputable def calculateDistance (lat1 lon1 lat2 lon2 : Option ℝ) : Option ℝ :=
  let dLat := lift1 toRadians (lift2 (fun x y => x - y) lat2 lat1)
  let dLon := lift1 toRadians (lift2 (fun x y => x - y) lon2 lon1)
  let lat1Rad := lift1 toRadians lat1
  let lat2Rad := lift1 toRadians lat2
  let sinDLatHalf := lift1 Real.sin (lift1 (fun t => t / 2) dLat)
  let sinDLonHalf := lift1 Real.sin (lift1 (fun t => t / 2) dLon)
  let a := lift2 (fun x y => x + y)
    (lift2 (fun x y => x * y) sinDLatHalf sinDLatHalf)
    (lift2 (fun x y => x * y)
      (lift2 (fun x y => x * y)
        (lift2 (fun x y => x * y) (lift1 Real.cos lat1Rad) (lift1 Real.cos lat2Rad))
        sinDLonHalf)
      sinDLonHalf)
  let c := lift2 (fun x y => x * y) (some 2)
    (jatan2 (jsqrt a) (jsqrt (lift2 (fun x y => x - y) (some 1) a)))
  lift2 (fun x y => x * y) (some EARTH_RADIUS_KM) c

/-- The haversine term `a` of the source, as a function of actual numbers
(same association as the TypeScript expression). -/
noncomputable def calcA (lat1 lon1 lat2 lon2 : ℝ) : ℝ :=
  Real.sin (toRadians (lat2 - lat1) / 2) * Real.sin (toRadians (lat2 - lat1) / 2) +
    Real.cos (toRadians lat1) * Real.cos (toRadians lat2) *
      Real.sin (toRadians (lon2 - lon1) / 2) * Real.sin (toRadians (lon2 - lon1) / 2)

/-- On actual (non-`NaN`) inputs the whole computation depends only on the
haversine term `calcA`. -/
theorem calculateDistance_some (lat1 lon1 lat2 lon2 : ℝ) :
    calculateDistance (some lat1) (some lon1) (some lat2) (some lon2) =
      lift2 (fun x y => x * y) (some EARTH_RADIUS_KM)
        (lift2 (fun x y => x * y) (some 2)
          (jatan2 (jsqrt (some (calcA lat1 lon1 lat2 lon2)))
            (jsqrt (lift2 (fun x y => x - y) (some 1)
              (some (calcA lat1 lon1 lat2 lon2)))))) := rfl

/-- `NaN` in the station latitude slot propagates to a `NaN` distance. -/
theorem calculateDistance_nan_lat2 (lat1 lon1 lon2 : Option ℝ) :
    calculateDistance lat1 lon1 none lon2 = none := by
  unfold calculateDistance jatan2
  simp [lift1, lift2_none_left, lift2_none_right, jsqrt]

/-- `NaN` in the station longitude slot propagates to a `NaN` distance. -/
theorem calculateDistance_nan_lon2 (lat1 lon1 lat2 : Option ℝ) :
    calculateDistance lat1 lon1 lat2 none = none := by
  unfold calculateDistance jatan2
  simp [lift1, lift2_none_left, lift2_none_right, jsqrt]

theorem cos_toRadians_nonneg {l : ℝ} (h : |l| ≤ 90) :
    0 ≤ Real.cos (toRadians l) := by
  obtain ⟨hlo, hhi⟩ := abs_le.mp h
  have hpi := Real.pi_pos
  refine Real.cos_nonneg_of_mem_Icc ⟨?_, ?_⟩
  · have := mul_le_mul_of_nonneg_right hlo (by positivity : (0:ℝ) ≤ Real.pi / 180)
    unfold toRadians
    nlinarith
  · have := mul_le_mul_of_nonneg_right hhi (by positivity : (0:ℝ) ≤ Real.pi / 180)
    unfold toRadians
    nlinarith

/-- The haversine term is non-negative for geodetic latitudes. -/
theorem calcA_nonneg (lat1 lon1 lat2 lon2 : ℝ)
    (h1 : |lat1| ≤ 90) (h2 : |lat2| ≤ 90) :
    0 ≤ calcA lat1 lon1 lat2 lon2 := by
  have c1 := cos_toRadians_nonneg h1
  have c2 := cos_toRadians_nonneg h2
  have hs := mul_self_nonneg (Real.sin (toRadians (lat2 - lat1) / 2))
  have ht := mul_self_nonneg (Real.sin (toRadians (lon2 - lon1) / 2))
  unfold calcA
  nlinarith [mul_nonneg (mul_nonneg c1 c2) ht]

/-- The haversine term is at most `1` for geodetic latitudes. -/
theorem calcA_le_one (lat1 lon1 lat2 lon2 : ℝ)
    (h1 : |lat1| ≤ 90) (h2 : |lat2| ≤ 90) :
    calcA lat1 lon1 lat2 lon2 ≤ 1 := by
  have c1 := cos_toRadians_nonneg h1
  have c2 := cos_toRadians_nonneg h2
  have hrad : toRadians (lat2 - lat1) = toRadians lat2 - toRadians lat1 := by
    unfold toRadians; ring
  have hhalf :
      Real.sin (toRadians (lat2 - lat1) / 2) ^ 2 =
        1 / 2 - Real.cos (toRadians lat2 - toRadians lat1) / 2 := by
    rw [hrad, Real.sin_sq_eq_half_sub]
    have : 2 * ((toRadians lat2 - toRadians lat1) / 2) =
        toRadians lat2 - toRadians lat1 := by ring
    rw [this]
  have hsub :
      Real.cos (toRadians lat2 - toRadians lat1) =
        Real.cos (toRadians lat2) * Real.cos (toRadians lat1) +
          Real.sin (toRadians lat2) * Real.sin (toRadians lat1) :=
    Real.cos_sub _ _
  have hadd :
      Real.cos (toRadians lat1 + toRadians lat2) =
        Real.cos (toRadians lat1) * Real.cos (toRadians lat2) -
          Real.sin (toRadians lat1) * Real.sin (toRadians lat2) :=
    Real.cos_add _ _
  have hle : Real.cos (toRadians lat1 + toRadians lat2) ≤ 1 := Real.cos_le_one _
  have ht : Real.sin (toRadians (lon2 - lon1) / 2) ^ 2 ≤ 1 := Real.sin_sq_le_one _
  unfold calcA
  nlinarith [mul_nonneg c1 c2, sq_nonneg (Real.sin (toRadians (lon2 - lon1) / 2))]

/-- The haversine distance of the specification, translated from its words:
`dLat = radians(b.lat - a.lat)`, `dLon = radians(b.lon - a.lon)`,
`h = sin²(dLat/2) + cos(radians(a.lat))·cos(radians(b.lat))·sin²(dLon/2)`,
`distance = 2·R·atan2(√h, √(1-h))` with `R = 6371` km. -/
noncomputable def haversineSpec (aLat aLon bLat bLon : ℝ) : ℝ :=
  let dLat := toRadians (bLat - aLat)
  let dLon := toRadians (bLon - aLon)
  let h := Real.sin (dLat / 2) ^ 2 +
    Real.cos (toRadians aLat) * Real.cos (toRadians bLat) * Real.sin (dLon / 2) ^ 2
  2 * EARTH_RADIUS_KM * atan2 (Real.sqrt h) (Real.sqrt (1 - h))

/-- The spec's `h` is the source's `a`. -/
theorem haversineSpec_eq (aLat aLon bLat bLon : ℝ) :
    haversineSpec aLat aLon bLat bLon =
      2 * EARTH_RADIUS_KM *
        atan2 (Real.sqrt (calcA aLat aLon bLat bLon))
          (Real.sqrt (1 - calcA aLat aLon bLat bLon)) := by
  simp only [haversineSpec, calcA]
  have h :
      Real.sin (toRadians (bLat - aLat) / 2) ^ 2 +
        Real.cos (toRadians aLat) * Real.cos (toRadians bLat) *
          Real.sin (toRadians (bLon - aLon) / 2) ^ 2 =
      Real.sin (toRadians (bLat - aLat) / 2) *
          Real.sin (toRadians (bLat - aLat) / 2) +
        Real.cos (toRadians aLat) * Real.cos (toRadians bLat) *
          Real.sin (toRadians (bLon - aLon) / 2) *
          Real.sin (toRadians (bLon - aLon) / 2) := by ring
  rw [h]

/-- **C8** — For geodetic latitudes (|lat| ≤ 90°), `calculateDistance` agrees
exactly with the haversine formula of the specification on a spherical earth
of radius 6371 km, and that value is a non-negative real. -/
theorem calculateDistance_haversine (lat1 lon1 lat2 lon2 : ℝ)
    (h1 : |lat1| ≤ 90) (h2 : |lat2| ≤ 90) :
    calculateDistance (some lat1) (some lon1) (some lat2) (some lon2) =
      some (haversineSpec lat1 lon1 lat2 lon2) ∧
    0 ≤ haversineSpec lat1 lon1 lat2 lon2 := by
  have h0 := calcA_nonneg lat1 lon1 lat2 lon2 h1 h2
  have hle := calcA_le_one lat1 lon1 lat2 lon2 h1 h2
  constructor
  · rw [calculateDistance_some, haversineSpec_eq]
    show lift2 _ _ (lift2 _ _ (jatan2 (jsqrt _) (jsqrt (some (1 - calcA lat1 lon1 lat2 lon2))))) = _
    rw [show jsqrt (some (calcA lat1 lon1 lat2 lon2)) =
        some (Real.sqrt (calcA lat1 lon1 lat2 lon2)) from if_pos h0,
      show jsqrt (some (1 - calcA lat1 lon1 lat2 lon2)) =
        some (Real.sqrt (1 - calcA lat1 lon1 lat2 lon2)) from
          if_pos (by linarith)]
    show some (EARTH_RADIUS_KM * (2 * atan2 _ _)) = some (2 * EARTH_RADIUS_KM * atan2 _ _)
    exact congrArg some (by ring)
  · rw [haversineSpec_eq]
    exact mul_nonneg (by norm_num [EARTH_RADIUS_KM])
      (atan2_nonneg _ _ (Real.sqrt_nonneg _))

/-- Witness for `calculateDistance_haversine` at the origin coordinate
pair. -/
theorem calculateDistance_haversine_witness :
    |(0 : ℝ)| ≤ 90 ∧
    (calculateDistance (some 0) (some 0) (some 0) (some 0) =
        some (haversineSpec 0 0 0 0) ∧
      0 ≤ haversineSpec 0 0 0 0) :=
  ⟨by norm_num, calculateDistance_haversine 0 0 0 0 (by norm_num) (by norm_num)⟩

/-- The haversine term is symmetric in the two coordinates. -/
theorem calcA_symm (lat1 lon1 lat2 lon2 : ℝ) :
    calcA lat1 lon1 lat2 lon2 = calcA lat2 lon2 lat1 lon1 := by
  unfold calcA
  have e1 : toRadians (lat1 - lat2) = -toRadians (lat2 - lat1) := by
    unfold toRadians; ring
  have e2 : toRadians (lon1 - lon2) = -toRadians (lon2 - lon1) := by
    unfold toRadians; ring
  rw [e1, e2]
  simp only [neg_div, Real.sin_neg]
  ring

/-- **C9** — `calculateDistance` is symmetric in its two coordinate pairs
(exactly, hence in particular within any floating-point tolerance; the `NaN`
cases are symmetric too), and the distance from any actual coordinate to
itself is exactly `0`. -/
theorem calculateDistance_symm_self :
    (∀ lat1 lon1 lat2 lon2 : Option ℝ,
      calculateDistance lat1 lon1 lat2 lon2 = calculateDistance lat2 lon2 lat1 lon1) ∧
    (∀ lat lon : ℝ,
      calculateDistance (some lat) (some lon) (some lat) (some lon) = some 0) := by
  constructor
  · intro lat1 lon1 lat2 lon2
    cases lat1 with
    | none =>
      rw [calculateDistance_nan_lat2]
      unfold calculateDistance jatan2
      simp [lift1, lift2_none_left, lift2_none_right, jsqrt]
    | some la1 =>
      cases lon1 with
      | none =>
        rw [calculateDistance_nan_lon2]
        unfold calculateDistance jatan2
        simp [lift1, lift2_none_left, lift2_none_right, jsqrt]
      | some lo1 =>
        cases lat2 with
        | none =>
          rw [calculateDistance_nan_lat2]
          unfold calculateDistance jatan2
          simp [lift1, lift2_none_left, lift2_none_right, jsqrt]
        | some la2 =>
          cases lon2 with
          | none =>
            rw [calculateDistance_nan_lon2]
            unfold calculateDistance jatan2
            simp [lift1, lift2_none_left, lift2_none_right, jsqrt]
          | some lo2 =>
            rw [calculateDistance_some, calculateDistance_some, calcA_symm]
  · intro lat lon
    rw [calculateDistance_some]
    have hA : calcA lat lon lat lon = 0 := by
      simp [calcA, toRadians]
    rw [hA]
    have hq : jsqrt (some (0:ℝ)) = some 0 := by
      rw [show jsqrt (some (0:ℝ)) = some (Real.sqrt 0) from if_pos le_rfl,
        Real.sqrt_zero]
    have hq1 : jsqrt (lift2 (fun x y => x - y) (some (1:ℝ)) (some 0)) = some 1 := by
      show jsqrt (some ((1:ℝ) - 0)) = some 1
      rw [show jsqrt (some ((1:ℝ) - 0)) = some (Real.sqrt (1 - 0)) from
        if_pos (by norm_num)]
      norm_num
    rw [hq, hq1]
    show some (EARTH_RADIUS_KM * (2 * atan2 0 1)) = some 0
    rw [atan2_zero_one]
    norm_num

end AirQuality

namespace AirQuality

/-- Unfolding equation of the resolver on a non-empty station list: only the
radius filter and the emptiness of its output decide between the ranked
result and the out-of-range error. -/
theorem getNearbyStations_cons {α : Type} [LinearOrder α]
    (dist : DustboyStation → Option α) (maxDistance : α)
    (s0 : DustboyStation) (rest : List DustboyStation) :
    getNearbyStations dist maxDistance (s0 :: rest) =
      (if (List.insertionSort byDistance
            (((s0 :: rest).map fun s => (s, dist s)).filter
              fun p => distLe p.2 maxDistance)).isEmpty then
        Except.error (NearbyError.noStationsInRange maxDistance)
      else
        Except.ok (List.insertionSort byDistance
          (((s0 :: rest).map fun s => (s, dist s)).filter
            fun p => distLe p.2 maxDistance))) := rfl

/-- A successful resolution is exactly the stable sort of the radius-filtered
distance-annotated list. -/
theorem getNearbyStations_ok {α : Type} [LinearOrder α]
    {dist : DustboyStation → Option α} {maxDistance : α}
    {stations : List DustboyStation}
    {l : List (DustboyStation × Option α)}
    (h : getNearbyStations dist maxDistance stations = Except.ok l) :
    l = List.insertionSort byDistance
          ((stations.map fun s => (s, dist s)).filter
            fun p => distLe p.2 maxDistance) := by
  cases stations with
  | nil => exact absurd h (by simp [getNearbyStations])
  | cons s0 rest =>
    rw [getNearbyStations_cons] at h
    by_cases he :
        (List.insertionSort byDistance
          (((s0 :: rest).map fun s => (s, dist s)).filter
            fun p => distLe p.2 maxDistance)).isEmpty
    · rw [if_pos he] at h
      cases h
    · rw [if_neg he] at h
      exact (Except.ok.inj h).symm

/-- **C5** — On an empty candidate station list (which is also how a missing
upstream payload reaches the resolver through `!stations?.length`),
`getNearbyStations` fails with the `NoStationsAvailable` error
(`'No stations data available'`) rather than returning a result, for every
distance assignment and threshold. -/
theorem getNearbyStations_nil {α : Type} [LinearOrder α]
    (dist : DustboyStation → Option α) (maxDistance : α) :
    getNearbyStations dist maxDistance [] =
      Except.error NearbyError.noStationsAvailable := rfl

/-- **C6** — On a non-empty station list in which every station's computed
distance is an actual number strictly greater than `maxDistance`, the
resolver fails with the `NoStationsInRange` error, whose payload is the very
threshold that the source interpolates into
`` `No stations found within ${maxDistance} km` ``. -/
theorem getNearbyStations_all_out_of_range {α : Type} [LinearOrder α]
    (dist : DustboyStation → Option α) (maxDistance : α)
    (stations : List DustboyStation)
    (hne : stations ≠ [])
    (hout : ∀ s ∈ stations, ∃ d, dist s = some d ∧ maxDistance < d) :
    getNearbyStations dist maxDistance stations =
      Except.error (NearbyError.noStationsInRange maxDistance) := by
  cases stations with
  | nil => exact absurd rfl hne
  | cons s0 rest =>
    rw [getNearbyStations_cons]
    have hfil :
        (((s0 :: rest).map fun s => (s, dist s)).filter
          fun p => distLe p.2 maxDistance) = [] := by
      rw [List.filter_eq_nil_iff]
      intro p hp
      obtain ⟨s, hs, rfl⟩ := List.mem_map.mp hp
      obtain ⟨d, hd, hlt⟩ := hout s hs
      simp only [distLe, hd]
      exact by simpa using not_le.mpr hlt
    rw [hfil]
    rfl

/-- **C2** — Whenever the resolver returns a ranked sequence `l` (there is no
exact-match branch in the code, so no side condition is needed), `l` contains
exactly the distance-annotated stations passing the radius filter (a
permutation of the filtered list), it is sorted by the comparator's ascending
distance order — hence distances are monotonically non-decreasing along
`l` — and the sort is stable: any pack of filter-surviving entries with
pairwise equal distances keeps its original relative order in `l`. -/
theorem getNearbyStations_ranked {α : Type} [LinearOrder α]
    (dist : DustboyStation → Option α) (maxDistance : α)
    (stations : List DustboyStation)
    (l : List (DustboyStation × Option α))
    (h : getNearbyStations dist maxDistance stations = Except.ok l) :
    l.Perm ((stations.map fun s => (s, dist s)).filter
        fun p => distLe p.2 maxDistance) ∧
    List.Sorted byDistance l ∧
    ∀ c : List (DustboyStation × Option α),
      c.Pairwise (fun p q => p.2 = q.2) →
      c.Sublist ((stations.map fun s => (s, dist s)).filter
        fun p => distLe p.2 maxDistance) →
      c.Sublist l := by
  have hl := getNearbyStations_ok h
  subst hl
  refine ⟨List.perm_insertionSort byDistance _, List.sorted_insertionSort byDistance _, ?_⟩
  intro c hpw hsub
  refine List.sublist_insertionSort ?_ hsub
  exact hpw.imp fun hpq => by
    show optLe _ _
    rw [hpq]
    exact optLe_refl _

/-! ## Witnesses for the resolver theorems are below, after the fixtures. -/

/-! ## Concrete fixtures used by counterexamples and witnesses

Rational constants are written as explicit `Rat.mk'` records so that the
kernel can evaluate the pipeline on them (`1 / 20` as a term would go through
`Nat.gcd`-normalising division, which the kernel does not reduce). -/

/-- The rational `1/20 = 0.05`, in already-reduced form. -/
def q005 : ℚ := ⟨1, 20, by decide, Nat.gcd_one_left 20⟩

theorem q005_eq : q005 = 1 / 20 := by
  norm_num [q005, Rat.mk'_eq_divInt, Rat.divInt_eq_div]

instance {ε α : Type} [DecidableEq ε] [DecidableEq α] :
    DecidableEq (Except ε α)
  | Except.error a, Except.error b =>
    if h : a = b then isTrue (by rw [h]) else isFalse (fun hc => h (Except.error.inj hc))
  | Except.error _, Except.ok _ => isFalse (fun hc => Except.noConfusion hc)
  | Except.ok _, Except.error _ => isFalse (fun hc => Except.noConfusion hc)
  | Except.ok a, Except.ok b =>
    if h : a = b then isTrue (by rw [h]) else isFalse (fun hc => h (Except.ok.inj hc))

/-- Fixture station `A`. -/
def stA : DustboyStation := ⟨"A", "13.7563", "100.5018", "a", "a"⟩

/-- Fixture station `B`. -/
def stB : DustboyStation := ⟨"B", "18.7883", "98.9853", "b", "b"⟩

/-- Fixture station `C` with a non-numeric latitude string. -/
def stC : DustboyStation := ⟨"C", "unknown", "98.0", "c", "c"⟩

/-- Fixture distance assignment: station `A` sits 0.05 km from the query
point (inside the 0.1 km exact-match epsilon), every other station 1 km. -/
def distExact : DustboyStation → Option ℚ := fun s =>
  if s.dustboy_id = "A" then some q005 else some 1

/-- **C1 (counterexample)** — The claimed exact-match short-circuit does not
exist in the code: with station `A` at distance 0.05 km, strictly below
`EXACT_MATCH_THRESHOLD = 0.1` km, and station `B` at 1 km — both within the
105 km radius — the resolver returns the full two-element ranked list, not
station `A` alone.  (`EXACT_MATCH_THRESHOLD` is declared in the source but
never read.) -/
theorem exactMatch_counterexample :
    (distExact stA = some q005 ∧ q005 < EXACT_MATCH_THRESHOLD) ∧
    getNearbyStations distExact 105 [stA, stB] =
      Except.ok [(stA, some q005), (stB, some 1)] ∧
    Except.ok [(stA, some q005), (stB, some 1)] ≠
      (Except.ok [(stA, some q005)] :
        Except (NearbyError ℚ) (List (DustboyStation × Option ℚ))) :=
  ⟨⟨rfl, by norm_num [q005, Rat.mk'_eq_divInt, Rat.divInt_eq_div, EXACT_MATCH_THRESHOLD]⟩,
    by decide, by decide⟩

/-- **C1 (amended)** — `getNearbyStations` applies no exact-match
short-circuit: even when some station's distance is strictly below the
(unused) `EXACT_MATCH_THRESHOLD` of 0.1 km, a successful resolution still
contains *every* station passing the radius filter, each paired with its
distance; the near-exact station merely participates in the ordinary
ranking. -/
theorem exactMatch_no_short_circuit {α : Type} [LinearOrderedField α]
    (dist : DustboyStation → Option α) (maxDistance : α)
    (stations : List DustboyStation)
    (l : List (DustboyStation × Option α))
    (s : DustboyStation) (d : α)
    (hmem : s ∈ stations) (hd : dist s = some d)
    (hexact : d < ((EXACT_MATCH_THRESHOLD : ℚ) : α))
    (h : getNearbyStations dist maxDistance stations = Except.ok l) :
    ∀ s' ∈ stations, distLe (dist s') maxDistance = true →
      (s', dist s') ∈ l := by
  intro s' hs' hle
  have hl := getNearbyStations_ok h
  subst hl
  rw [List.mem_insertionSort, List.mem_filter]
  exact ⟨List.mem_map.mpr ⟨s', hs', rfl⟩, hle⟩

/-- Witness for `exactMatch_no_short_circuit`: station `A` is 0.05 km away
(below the epsilon), yet in-range station `B` still appears in the ranked
result. -/
theorem exactMatch_no_short_circuit_witness :
    (stA ∈ [stA, stB] ∧
      distExact stA = some q005 ∧
      q005 < ((EXACT_MATCH_THRESHOLD : ℚ) : ℚ) ∧
      getNearbyStations distExact 105 [stA, stB] =
        Except.ok [(stA, some q005), (stB, some 1)]) ∧
    (∀ s' ∈ [stA, stB], distLe (distExact s') 105 = true →
      (s', distExact s') ∈ [(stA, some q005), (stB, some 1)]) :=
  ⟨⟨by decide, rfl,
    by norm_num [q005, Rat.mk'_eq_divInt, Rat.divInt_eq_div, EXACT_MATCH_THRESHOLD],
    by decide⟩,
    exactMatch_no_short_circuit distExact 105 [stA, stB]
      [(stA, some q005), (stB, some 1)] stA q005
      (by decide) rfl
      (by norm_num [q005, Rat.mk'_eq_divInt, Rat.divInt_eq_div, EXACT_MATCH_THRESHOLD])
      (by decide)⟩

/-- Witness for `getNearbyStations_all_out_of_range`: one station 200 km
away against a 105 km radius. -/
theorem getNearbyStations_all_out_of_range_witness :
    (([stA] : List DustboyStation) ≠ [] ∧
      ∀ s ∈ ([stA] : List DustboyStation),
        ∃ d, (fun _ => some (200 : ℚ)) s = some d ∧ (105 : ℚ) < d) ∧
    getNearbyStations (fun _ => some (200 : ℚ)) 105 [stA] =
      Except.error (NearbyError.noStationsInRange 105) :=
  ⟨⟨by decide, fun s _ => ⟨200, rfl, by decide⟩⟩,
    getNearbyStations_all_out_of_range (fun _ => some (200 : ℚ)) 105 [stA]
      (by decide) (fun s _ => ⟨200, rfl, by decide⟩)⟩

/-- Witness for `getNearbyStations_ranked`: two stations given out of
distance order come back filtered, sorted and stable. -/
theorem getNearbyStations_ranked_witness :
    getNearbyStations distExact 105 [stB, stA] =
      Except.ok [(stA, some q005), (stB, some 1)] ∧
    ([(stA, some q005), (stB, some 1)].Perm
        (([stB, stA].map fun s => (s, distExact s)).filter
          fun p => distLe p.2 105) ∧
      List.Sorted byDistance [(stA, some q005), (stB, some 1)] ∧
      ∀ c : List (DustboyStation × Option ℚ),
        c.Pairwise (fun p q => p.2 = q.2) →
        c.Sublist (([stB, stA].map fun s => (s, distExact s)).filter
          fun p => distLe p.2 105) →
        c.Sublist [(stA, some q005), (stB, some 1)]) :=
  ⟨by decide, getNearbyStations_ranked distExact 105 [stB, stA] _ (by decide)⟩

end AirQuality

namespace AirQuality

/-! ## The resolver instantiated with the real distance computation -/

/-- `parseFloat(coordinateString)` as a JavaScript number: the rational value
of the decimal prefix, or `NaN`. -/
noncomputable def parsedCoord (s : String) : Option ℝ :=
  (parseFloat s).map fun q => (q : ℝ)

/-- The `distance` field computed by `getNearbyStations` for one station:
`this.calculateDistance(userLocation.latitude, userLocation.longitude,
parseFloat(station.dustboy_lat), parseFloat(station.dustboy_lng))`. -/
noncomputable def distanceToStation (u : LocationCoordinates)
    (s : DustboyStation) : Option ℝ :=
  calculateDistance (some u.latitude) (some u.longitude)
    (parsedCoord s.dustboy_lat) (parsedCoord s.dustboy_lng)

/-- `getNearbyStations` as the repository runs it: the generic pipeline over
the haversine distance from the user location. -/
noncomputable def getNearbyStationsFromUser (u : LocationCoordinates)
    (maxDistance : ℝ) (stations : List DustboyStation) :
    Except (NearbyError ℝ) (List (DustboyStation × Option ℝ)) :=
  getNearbyStations (distanceToStation u) maxDistance stations

/-- **C7** — A station whose latitude or longitude string has no numeric
prefix gets a `NaN` distance (`none`), never a thrown error: the resolution
pass stays total on it, the station is excluded from any ranked output, and
the resolver's overall verdict — result or error — is exactly what it would
have been had the malformed station not been in the list at all (so the
well-formed stations are ranked normally), provided the rest of the list is
non-empty. -/
theorem malformed_station_excluded (u : LocationCoordinates) (maxDistance : ℝ)
    (s : DustboyStation)
    (hbad : parseFloat s.dustboy_lat = none ∨ parseFloat s.dustboy_lng = none)
    (pre post : List DustboyStation) (hne : pre ++ post ≠ []) :
    distanceToStation u s = none ∧
    getNearbyStationsFromUser u maxDistance (pre ++ s :: post) =
      getNearbyStationsFromUser u maxDistance (pre ++ post) ∧
    ∀ l, getNearbyStationsFromUser u maxDistance (pre ++ s :: post) =
        Except.ok l → ∀ d, (s, d) ∉ l := by
  have hnan : distanceToStation u s = none := by
    rcases hbad with hb | hb
    · unfold distanceToStation parsedCoord
      rw [hb]
      exact calculateDistance_nan_lat2 _ _ _
    · unfold distanceToStation parsedCoord
      rw [hb]
      exact calculateDistance_nan_lon2 _ _ _
  have hfil : ∀ rest : List DustboyStation,
      ((s :: rest).map fun st => (st, distanceToStation u st)).filter
          (fun p => distLe p.2 maxDistance) =
        (rest.map fun st => (st, distanceToStation u st)).filter
          (fun p => distLe p.2 maxDistance) := by
    intro rest
    rw [List.map_cons, List.filter_cons_of_neg]
    simp [hnan, distLe]
  refine ⟨hnan, ?_, ?_⟩
  · unfold getNearbyStationsFromUser getNearbyStations
    have e1 : (pre ++ s :: post).isEmpty = false := by
      simp
    have e2 : (pre ++ post).isEmpty = false := by
      simpa [List.isEmpty_iff] using hne
    rw [e1, e2]
    have hfl :
        ((pre ++ s :: post).map fun st => (st, distanceToStation u st)).filter
            (fun p => distLe p.2 maxDistance) =
          ((pre ++ post).map fun st => (st, distanceToStation u st)).filter
            (fun p => distLe p.2 maxDistance) := by
      rw [List.map_append, List.filter_append, hfil post,
        List.map_append, List.filter_append]
    simp only [hfl]
  · intro l hl d hmem
    unfold getNearbyStationsFromUser at hl
    have hll := getNearbyStations_ok hl
    subst hll
    rw [List.mem_insertionSort, List.mem_filter] at hmem
    obtain ⟨hmap, hpass⟩ := hmem
    obtain ⟨s', _, heq⟩ := List.mem_map.mp hmap
    have hs : s' = s := congrArg Prod.fst heq
    have hd : d = distanceToStation u s' := (congrArg Prod.snd heq).symm
    rw [hs] at hd
    rw [hd, hnan] at hpass
    exact absurd hpass (by simp [distLe])

/-- Witness for `malformed_station_excluded`: station `C` carries the
latitude string `"unknown"`; flanked by stations `A` and `B` it is invisible
to the resolver. -/
theorem malformed_station_excluded_witness :
    ((parseFloat stC.dustboy_lat = none ∨ parseFloat stC.dustboy_lng = none) ∧
      ([stA] ++ [stB] : List DustboyStation) ≠ []) ∧
    (distanceToStation ⟨0, 0⟩ stC = none ∧
      getNearbyStationsFromUser ⟨0, 0⟩ 105 ([stA] ++ stC :: [stB]) =
        getNearbyStationsFromUser ⟨0, 0⟩ 105 ([stA] ++ [stB]) ∧
      ∀ l, getNearbyStationsFromUser ⟨0, 0⟩ 105 ([stA] ++ stC :: [stB]) =
          Except.ok l → ∀ d, (stC, d) ∉ l) :=
  ⟨⟨Or.inl (by decide), by decide⟩,
    malformed_station_excluded ⟨0, 0⟩ 105 stC (Or.inl (by decide))
      [stA] [stB] (by decide)⟩


/-! ## The fallback reading fetcher

`getStationValue` and `getStationValueWithFallback`, parameterised by the raw
HTTP fetch `fetchRaw : String → Except ε δ` (the `axios` call, which either
yields a payload or throws) and by the JavaScript emptiness test
`nonEmpty : δ → Bool` embedding `data && (!Array.isArray(data) ||
data.length > 0)` (whose negation is exactly the guard
`!data || (Array.isArray(data) && data.length === 0)` of `getStationValue`).
The fallback fetcher returns, alongside its result, the trace of station ids
on which `getStationValue` was invoked, in call order. -/

/-- Errors thrown by `getStationValue`: a rethrown fetch failure (the
`error instanceof Error` branch; typed errors make the non-`Error`-throwable
wrapping branch unrepresentable), or `'No data available for this station'`
when the payload is missing or an empty array. -/
inductive StationValueError (ε : Type) where
  | fetchError (e : ε) : StationValueError ε
  | noDataForStation : StationValueError ε
deriving DecidableEq

/-- `getStationValue` of the source: fetch `/value/${stationId}`, throw on a
missing or empty payload, otherwise return the payload. -/
def getStationValue {ε δ : Type} (fetchRaw : String → Except ε δ)
    (nonEmpty : δ → Bool) (stationId : String) :
    Except (StationValueError ε) δ :=
  match fetchRaw stationId with
  | Except.error e => Except.error (StationValueError.fetchError e)
  | Except.ok d =>
    if nonEmpty d then Except.ok d else Except.error StationValueError.noDataForStation

/-- Errors thrown by `getStationValueWithFallback`: the up-front
`'No stations provided'` guard, the rethrown `lastError` recorded by the
loop, or the generic `'No data available from any station'` when no failure
was a thrown error. -/
inductive FallbackError (ε : Type) where
  | noStationsProvided : FallbackError ε
  | lastError (e : StationValueError ε) : FallbackError ε
  | noDataAvailable : FallbackError ε
deriving DecidableEq

/-- The `for (const station of stations)` loop of
`getStationValueWithFallback`, carrying the mutable `lastError` binding as an
accumulator.  The second component of the result is the trace of station ids
passed to `getStationValue`, in call order (one entry per loop iteration that
runs a fetch). -/
def fallbackLoop {ε δ : Type} (fetchRaw : String → Except ε δ)
    (nonEmpty : δ → Bool) (last : Option (StationValueError ε)) :
    List DustboyStation → Except (FallbackError ε) δ × List String
  | [] =>
    (Except.error (match last with
      | some e => FallbackError.lastError e
      | none => FallbackError.noDataAvailable), [])
  | s :: rest =>
    match getStationValue fetchRaw nonEmpty s.dustboy_id with
    | Except.ok d =>
      if nonEmpty d then (Except.ok d, [s.dustboy_id])
      else
        let r := fallbackLoop fetchRaw nonEmpty last rest
        (r.1, s.dustboy_id :: r.2)
    | Except.error e =>
      let r := fallbackLoop fetchRaw nonEmpty (some e) rest
      (r.1, s.dustboy_id :: r.2)

/-- `getStationValueWithFallback` of the source: guard the empty list, then
run the loop with `lastError = null`. -/
def getStationValueWithFallback {ε δ : Type} (fetchRaw : String → Except ε δ)
    (nonEmpty : δ → Bool) (stations : List DustboyStation) :
    Except (FallbackError ε) δ × List String :=
  if stations.isEmpty then (Except.error FallbackError.noStationsProvided, [])
  else fallbackLoop fetchRaw nonEmpty none stations

/-- A successful `getStationValue` always carries a payload that passes the
loop's own non-emptiness re-check (the source checks the same condition in
both places). -/
theorem getStationValue_ok_nonEmpty {ε δ : Type}
    {fetchRaw : String → Except ε δ} {nonEmpty : δ → Bool} {stationId : String}
    {d : δ} (h : getStationValue fetchRaw nonEmpty stationId = Except.ok d) :
    nonEmpty d = true := by
  unfold getStationValue at h
  cases hf : fetchRaw stationId with
  | error e => simp [hf] at h
  | ok d0 =>
    simp only [hf] at h
    by_cases hn : nonEmpty d0
    · rw [if_pos hn] at h
      cases h
      exact hn
    · rw [if_neg hn] at h
      cases h

/-- A failing attempt on one station advances the loop to the rest of the
list, updating `lastError` when the failure was thrown. -/
theorem fallbackLoop_cons_fail {ε δ : Type}
    (fetchRaw : String → Except ε δ) (nonEmpty : δ → Bool)
    (last : Option (StationValueError ε)) (s : DustboyStation)
    (rest : List DustboyStation) (e : StationValueError ε)
    (h : getStationValue fetchRaw nonEmpty s.dustboy_id = Except.error e) :
    fallbackLoop fetchRaw nonEmpty last (s :: rest) =
      ((fallbackLoop fetchRaw nonEmpty (some e) rest).1,
        s.dustboy_id :: (fallbackLoop fetchRaw nonEmpty (some e) rest).2) := by
  simp only [fallbackLoop, h]

/-- **C3** — The fallback fetcher attempts the ranked stations strictly in
sequence order, one `getStationValue` call per station, and returns the first
successful (hence non-empty) reading immediately: if every station of the
prefix `pre` fails and station `s` succeeds with reading `d`, the result is
`d` and the trace of attempted ids is exactly `pre`'s ids followed by `s`'s
id — the stations after `s` are never fetched.  (Instantiating `pre` with two
failing stations gives the spec's three-fetch scenario.) -/
theorem fallback_first_success {ε δ : Type}
    (fetchRaw : String → Except ε δ) (nonEmpty : δ → Bool)
    (pre post : List DustboyStation) (s : DustboyStation) (d : δ)
    (hpre : ∀ s' ∈ pre, ∃ e,
      getStationValue fetchRaw nonEmpty s'.dustboy_id = Except.error e)
    (hs : getStationValue fetchRaw nonEmpty s.dustboy_id = Except.ok d) :
    getStationValueWithFallback fetchRaw nonEmpty (pre ++ s :: post) =
      (Except.ok d, pre.map (fun s' => s'.dustboy_id) ++ [s.dustboy_id]) := by
  have hloop : ∀ (pre' : List DustboyStation)
      (last : Option (StationValueError ε)),
      (∀ s' ∈ pre', ∃ e,
        getStationValue fetchRaw nonEmpty s'.dustboy_id = Except.error e) →
      fallbackLoop fetchRaw nonEmpty last (pre' ++ s :: post) =
        (Except.ok d, pre'.map (fun s' => s'.dustboy_id) ++ [s.dustboy_id]) := by
    intro pre'
    induction pre' with
    | nil =>
      intro last _
      show fallbackLoop fetchRaw nonEmpty last (s :: post) = _
      simp [fallbackLoop, hs, getStationValue_ok_nonEmpty hs]
    | cons s0 rest ih =>
      intro last hall
      obtain ⟨e, he⟩ := hall s0 (List.mem_cons_self s0 rest)
      rw [List.cons_append,
        fallbackLoop_cons_fail fetchRaw nonEmpty last s0 (rest ++ s :: post) e he,
        ih (some e) (fun s' hs' => hall s' (List.mem_cons_of_mem s0 hs'))]
      rfl
  unfold getStationValueWithFallback
  rw [if_neg (by simp)]
  exact hloop pre none hpre

/-- The fixture fetch for the three-station scenario fails on stations `A`
and `B`. -/
theorem fallback_first_success_preIsFailing :
    ∀ s' ∈ [stA, stB], ∃ e,
      getStationValue
        (fun i => if i = "C" then Except.ok [(42 : ℕ)] else Except.error "network")
        (fun l => !l.isEmpty) s'.dustboy_id = Except.error e := by
  intro s' hs'
  rcases List.mem_cons.mp hs' with rfl | hs'
  · exact ⟨StationValueError.fetchError "network", by decide⟩
  rcases List.mem_cons.mp hs' with rfl | hs'
  · exact ⟨StationValueError.fetchError "network", by decide⟩
  · cases hs'

/-- Witness for `fallback_first_success`: three stations, the first two
fetches fail, the third succeeds — the third station's reading is returned
after exactly three fetches in order. -/
theorem fallback_first_success_witness :
    ((∀ s' ∈ [stA, stB], ∃ e,
        getStationValue
          (fun i => if i = "C" then Except.ok [(42 : ℕ)] else Except.error "network")
          (fun l => !l.isEmpty) s'.dustboy_id = Except.error e) ∧
      getStationValue
          (fun i => if i = "C" then Except.ok [(42 : ℕ)] else Except.error "network")
          (fun l => !l.isEmpty) stC.dustboy_id = Except.ok [(42 : ℕ)]) ∧
    getStationValueWithFallback
        (fun i => if i = "C" then Except.ok [(42 : ℕ)] else Except.error "network")
        (fun l => !l.isEmpty) ([stA, stB] ++ stC :: []) =
      (Except.ok [(42 : ℕ)], ["A", "B", "C"]) :=
  ⟨⟨fallback_first_success_preIsFailing, by decide⟩,
    fallback_first_success
      (fun i => if i = "C" then Except.ok [(42 : ℕ)] else Except.error "network")
      (fun l => !l.isEmpty) [stA, stB] [] stC [(42 : ℕ)]
      fallback_first_success_preIsFailing (by decide)⟩

/-- **C4** — When every station of a non-empty ranked sequence fails (here:
`getStationValue` throws, which in the source covers both a failed fetch and
an empty payload — an empty payload makes `getStationValue` itself throw, so
`lastError` is set on every failed iteration and the generic
`'No data available from any station'` fallback is unreachable), the fetcher
fails by rethrowing the *last* encountered failure, having attempted every
station in order. -/
theorem fallback_exhausted {ε δ : Type}
    (fetchRaw : String → Except ε δ) (nonEmpty : δ → Bool)
    (init : List DustboyStation) (slast : DustboyStation)
    (hall : ∀ s ∈ init ++ [slast], ∃ e,
      getStationValue fetchRaw nonEmpty s.dustboy_id = Except.error e) :
    ∃ e, getStationValue fetchRaw nonEmpty slast.dustboy_id = Except.error e ∧
      getStationValueWithFallback fetchRaw nonEmpty (init ++ [slast]) =
        (Except.error (FallbackError.lastError e),
          (init ++ [slast]).map fun s => s.dustboy_id) := by
  obtain ⟨e, he⟩ := hall slast (by simp)
  refine ⟨e, he, ?_⟩
  have hloop : ∀ (init' : List DustboyStation)
      (last : Option (StationValueError ε)),
      (∀ s ∈ init', ∃ e',
        getStationValue fetchRaw nonEmpty s.dustboy_id = Except.error e') →
      fallbackLoop fetchRaw nonEmpty last (init' ++ [slast]) =
        (Except.error (FallbackError.lastError e),
          (init' ++ [slast]).map fun s => s.dustboy_id) := by
    intro init'
    induction init' with
    | nil =>
      intro last _
      show fallbackLoop fetchRaw nonEmpty last [slast] = _
      rw [fallbackLoop_cons_fail fetchRaw nonEmpty last slast [] e he]
      rfl
    | cons s0 rest ih =>
      intro last hall'
      obtain ⟨e0, he0⟩ := hall' s0 (List.mem_cons_self s0 rest)
      rw [List.cons_append,
        fallbackLoop_cons_fail fetchRaw nonEmpty last s0 (rest ++ [slast]) e0 he0,
        ih (some e0) (fun s' hs' => hall' s' (List.mem_cons_of_mem s0 hs'))]
      rfl
  unfold getStationValueWithFallback
  rw [if_neg (by simp)]
  exact hloop init none fun s hs => hall s (List.mem_append.mpr (Or.inl hs))

/-- The fixture fetch for the two-station scenario fails on both stations. -/
theorem fallback_exhausted_allFailing :
    ∀ s ∈ [stA] ++ [stB], ∃ e,
      getStationValue (fun i => (Except.error i : Except String (List ℕ)))
        (fun l => !l.isEmpty) s.dustboy_id = Except.error e := by
  intro s hs
  rcases List.mem_cons.mp hs with rfl | hs
  · exact ⟨StationValueError.fetchError "A", by decide⟩
  rcases List.mem_cons.mp hs with rfl | hs
  · exact ⟨StationValueError.fetchError "B", by decide⟩
  · cases hs

/-- Witness for `fallback_exhausted`: two stations whose fetches both fail;
the rethrown error is the second (last) station's. -/
theorem fallback_exhausted_witness :
    (∀ s ∈ [stA] ++ [stB], ∃ e,
      getStationValue (fun i => (Except.error i : Except String (List ℕ)))
        (fun l => !l.isEmpty) s.dustboy_id = Except.error e) ∧
    ∃ e, getStationValue (fun i => (Except.error i : Except String (List ℕ)))
        (fun l => !l.isEmpty) stB.dustboy_id = Except.error e ∧
      getStationValueWithFallback
          (fun i => (Except.error i : Except String (List ℕ)))
          (fun l => !l.isEmpty) ([stA] ++ [stB]) =
        (Except.error (FallbackError.lastError e),
          ([stA] ++ [stB]).map fun s => s.dustboy_id) :=
  ⟨fallback_exhausted_allFailing,
    fallback_exhausted (fun i => (Except.error i : Except String (List ℕ)))
      (fun l => !l.isEmpty) [stA] stB fallback_exhausted_allFailing⟩

/-- **C10** — On an empty station sequence the fallback fetcher fails
immediately with the dedicated `'No stations provided'` error and performs no
fetch at all (empty trace); that error kind is distinct from both forms of
the reading-exhaustion failure raised after a non-empty sequence is
exhausted. -/
theorem fallback_no_stations {ε δ : Type}
    (fetchRaw : String → Except ε δ) (nonEmpty : δ → Bool) :
    getStationValueWithFallback fetchRaw nonEmpty [] =
      (Except.error FallbackError.noStationsProvided, []) ∧
    (∀ e : StationValueError ε,
      (FallbackError.noStationsProvided : FallbackError ε) ≠
        FallbackError.lastError e) ∧
    (FallbackError.noStationsProvided : FallbackError ε) ≠
      FallbackError.noDataAvailable :=
  ⟨rfl, fun e h => FallbackError.noConfusion h, fun h => FallbackError.noConfusion h⟩

end AirQuality
